import Mathlib

/-!
Verification development for the gesture-recognition core of
`simple_mpc_server`: the geometric feature extractor
(`gesture_tracker/analysis.py`, with the legacy variant in
`gesture_tracker/old_main.py`) and the temporal gesture stabilizer
(`tools/camera_tool.py`, method `_analyze_gesture_stability`).

Python floats are modelled by exact rationals (`ℚ`) for the stabilizer and
by real numbers (`ℝ`) for the geometry (square roots and arc-cosines).
A Python function that can raise `IndexError` on a short landmark list is
modelled as an `Option`-returning function: `none` means the call raises.
-/

namespace SimpleMpc

/-! ## Python `statistics.mode`

`camera_tool.py` calls `statistics.mode` on non-empty lists.  Since
Python 3.8 `mode(data)` is `Counter(iter(data)).most_common(1)[0][0]` and is
documented to return the first value encountered in the data when several
values are tied for maximal multiplicity.  That semantics is embedded here:
scan the data in order and return the first element of maximal count. -/

def pyMode {α : Type} [BEq α] (l : List α) : Option α :=
  l.find? (fun a => l.all (fun b => l.count b ≤ l.count a))

/-! ## The gesture stabilizer (`CameraTool._analyze_gesture_stability`)

One raw reading per frame, as assembled in `camera_detect_gesture_stable`:
the `count` and `is_fist` keys are always present, the `up` key (list of
Polish finger names) may be absent, which `none` models. -/

structure Reading where
  count : ℕ
  is_fist : Bool
  up : Option (List String)
deriving DecidableEq

/-- The `details` dictionary built for non-empty input.  `reason` and
`active_fingers` model keys that are only sometimes inserted. -/
structure Details where
  dominant_finger_count : ℕ
  is_dominant_fist : Bool
  raw_readings_count : ℕ
  stability_score : ℚ
  reason : Option String
  active_fingers : Option (List String)
deriving DecidableEq

/-- The dictionary returned by `_analyze_gesture_stability`.  On empty input
the method returns `details \x7b\x7d`, modelled as `details = none`. -/
structure StabResult where
  gesture : String
  confidence : ℚ
  details : Option Details
deriving DecidableEq

/-- Python's `round(x, 2)` (round half to even, on exact rationals). -/
def roundTo2 (x : ℚ) : ℚ :=
  let y := x * 100
  let f : ℤ := Int.floor y
  let r := y - f
  let n : ℤ := if r < 1/2 then f else if 1/2 < r then f + 1
    else if f % 2 = 0 then f else f + 1
  (n : ℚ) / 100

/-- Embedding of `CameraTool._analyze_gesture_stability`
(`tools/camera_tool.py`).  `minConfidenceRatio` is the instance field
`self.min_confidence_ratio` (configured to `0.7`).  The `try/except` around
the `mode` calls is modelled by the same fallback (`getD` of the last
element): `statistics.mode` raises only on empty data, which cannot occur
on the non-empty branch, so the fallback is dead there. -/
def analyzeGestureStability (minConfidenceRatio : ℚ) (readings : List Reading) :
    StabResult :=
  if readings.isEmpty then
    { gesture := "none", confidence := 0, details := none }
  else
    let fingerCounts := readings.map Reading.count
    let isFists := readings.map Reading.is_fist
    let dominantCount := (pyMode fingerCounts).getD (fingerCounts.getLast?.getD 0)
    let dominantFist := (pyMode isFists).getD (isFists.getLast?.getD false)
    let countConfidence : ℚ :=
      (fingerCounts.count dominantCount : ℚ) / (fingerCounts.length : ℚ)
    let fistConfidence : ℚ :=
      (isFists.count dominantFist : ℚ) / (isFists.length : ℚ)
    let overallConfidence := (countConfidence + fistConfidence) / 2
    let detectedGesture : String :=
      if overallConfidence < minConfidenceRatio then "unstable"
      else if dominantFist = true ∧ 8/10 < fistConfidence then "fist"
      else if dominantCount = 0 then "open_palm_or_no_hand"
      else if dominantCount = 1 then "one_finger"
      else if dominantCount = 2 then "two_fingers"
      else if dominantCount = 5 then "open_hand"
      else toString dominantCount ++ "_fingers"
    let fingerPatterns := readings.filterMap Reading.up
    let activeFingers : Option (List String) :=
      if fingerPatterns.isEmpty then none
      else some ((pyMode fingerPatterns).getD [])
    { gesture := detectedGesture
      confidence := overallConfidence
      details := some
        { dominant_finger_count := dominantCount
          is_dominant_fist := dominantFist
          raw_readings_count := readings.length
          stability_score := roundTo2 overallConfidence
          reason :=
            if overallConfidence < minConfidenceRatio then
              some "Zbyt duża zmienność wykrycia"
            else none
          active_fingers := activeFingers } }

/-- The window used by the second worked example of the spec: 7 readings of
two raised fingers followed by 3 readings of none, never a fist. -/
def exampleWindow : List Reading :=
  List.replicate 7 ⟨2, false, none⟩ ++ List.replicate 3 ⟨0, false, none⟩


/-! ## Geometry primitives (`gesture_tracker/analysis.py`)

Landmarks carry exact rational coordinates; Euclidean norms are reals
(`Real.sqrt`).  A landmark list of the wrong length makes the Python code
raise `IndexError` at the first out-of-range subscript, which the
`Option`-valued embeddings model as `none`. -/

structure Landmark where
  x : ℚ
  y : ℚ
  z : ℚ
deriving DecidableEq

/-- `_v3`: a landmark as a 3-vector. -/
def v3 (lm : Landmark) : ℚ × ℚ × ℚ := (lm.x, lm.y, lm.z)

def vsub (a b : ℚ × ℚ × ℚ) : ℚ × ℚ × ℚ :=
  (a.1 - b.1, a.2.1 - b.2.1, a.2.2 - b.2.2)

def vadd (a b : ℚ × ℚ × ℚ) : ℚ × ℚ × ℚ :=
  (a.1 + b.1, a.2.1 + b.2.1, a.2.2 + b.2.2)

def smul (c : ℚ) (a : ℚ × ℚ × ℚ) : ℚ × ℚ × ℚ := (c * a.1, c * a.2.1, c * a.2.2)

/-- Squared Euclidean length, exact over `ℚ`. -/
def normSq (a : ℚ × ℚ × ℚ) : ℚ := a.1 ^ 2 + a.2.1 ^ 2 + a.2.2 ^ 2

/-- `np.linalg.norm` of a rational vector. -/
noncomputable def vnorm (a : ℚ × ℚ × ℚ) : ℝ := Real.sqrt ((normSq a : ℚ) : ℝ)

/-- Real 3-vectors, for the primitives taking arbitrary float vectors. -/
structure RVec3 where
  x : ℝ
  y : ℝ
  z : ℝ

def toR (a : ℚ × ℚ × ℚ) : RVec3 := ⟨(a.1 : ℝ), (a.2.1 : ℝ), (a.2.2 : ℝ)⟩

def rdot (a b : RVec3) : ℝ := a.x * b.x + a.y * b.y + a.z * b.z

noncomputable def rnorm (a : RVec3) : ℝ := Real.sqrt (rdot a a)

/-- `_unit` (= `Detector.unit` in `old_main.py`): `v / ‖v‖` when
`‖v‖ > 1e-6` (the literal `1e-6` written as `1/1000000`), else `v` unchanged. -/
noncomputable def unitVec (v : RVec3) : RVec3 :=
  let n := rnorm v
  if n > 1/1000000 then ⟨v.x / n, v.y / n, v.z / n⟩ else v

/-- `np.clip(x, lo, hi)`. -/
noncomputable def clip (x lo hi : ℝ) : ℝ := min (max x lo) hi

/-- `np.degrees`. -/
noncomputable def degrees (x : ℝ) : ℝ := x * 180 / Real.pi

/-- `angle_deg(v1, v2)` (= `Detector.angle_deg` in `old_main.py`). -/
noncomputable def angle_deg (v1 v2 : RVec3) : ℝ :=
  degrees (Real.arccos (clip (rdot (unitVec v1) (unitVec v2)) (-1) 1))

/-- `HandAngles` with its two angle fields. -/
structure HandAngles where
  thumb_palm : ℝ
  thumb_index : ℝ

/-- `HandAnalyzer.compute_angles`; accesses indices 9, 12, 5, 8, 2, 4. -/
noncomputable def compute_angles? (landmarks : List Landmark) : Option HandAngles := do
  let p9 ← landmarks.get? 9
  let p12 ← landmarks.get? 12
  let p5 ← landmarks.get? 5
  let p8 ← landmarks.get? 8
  let p2 ← landmarks.get? 2
  let p4 ← landmarks.get? 4
  let palmAxis := vsub (v3 p9) (v3 p12)
  let indexAxis := vsub (v3 p5) (v3 p8)
  let thumbDir := vsub (v3 p4) (v3 p2)
  pure ⟨angle_deg (toR thumbDir) (toR palmAxis), angle_deg (toR palmAxis) (toR indexAxis)⟩

open Classical in
/-- `HandAnalyzer.is_fist`: wrist 0, middle MCP 9; non-thumb fingers
(tip, pip) = (8,6), (12,10), (16,14), (20,18); thumb tip 4, thumb IP 3
(fetched but unused, as in the source), index MCP 5. -/
noncomputable def is_fist? (landmarks : List Landmark) : Option Bool := do
  let wrist ← landmarks.get? 0
  let midMcp ← landmarks.get? 9
  let handScale := vnorm (vsub (v3 wrist) (v3 midMcp))
  if handScale < 1/1000000 then
    pure false
  else
    let t1 ← landmarks.get? 8
    let p1 ← landmarks.get? 6
    let t2 ← landmarks.get? 12
    let p2 ← landmarks.get? 10
    let t3 ← landmarks.get? 16
    let p3 ← landmarks.get? 14
    let t4 ← landmarks.get? 20
    let p4 ← landmarks.get? 18
    let fingersFoldedCount : ℕ :=
      [(t1, p1), (t2, p2), (t3, p3), (t4, p4)].foldl
        (fun acc tp =>
          if vnorm (vsub (v3 tp.1) (v3 wrist)) < vnorm (vsub (v3 tp.2) (v3 wrist))
          then acc + 1 else acc) 0
    let fingersCondition : Prop := 3 ≤ fingersFoldedCount
    let thumbTip ← landmarks.get? 4
    let _thumbIp ← landmarks.get? 3
    let indexMcp ← landmarks.get? 5
    let thumbIndexDist := vnorm (vsub (v3 thumbTip) (v3 indexMcp))
    let thumbPalmDist := vnorm (vsub (v3 thumbTip) (v3 wrist))
    let thumbCondition : Prop :=
      thumbIndexDist < 3/10 * handScale ∨ thumbPalmDist < 4/10 * handScale
    pure (decide (fingersCondition ∧ thumbCondition))

/-- `HandAnalyzer.palm_center`: mean of landmarks 0, 5, 9, 13, 17. -/
def palm_center? (landmarks : List Landmark) : Option (ℚ × ℚ) := do
  let p0 ← landmarks.get? 0
  let p5 ← landmarks.get? 5
  let p9 ← landmarks.get? 9
  let p13 ← landmarks.get? 13
  let p17 ← landmarks.get? 17
  let center := smul (1/5)
    (vadd (v3 p0) (vadd (v3 p5) (vadd (v3 p9) (vadd (v3 p13) (v3 p17)))))
  pure (center.1, center.2.1)

/-- `HandAnalyzer.fingers_up`: thumb from IP (3) vs MCP (2) on y, the four
fingers from tip vs pip on y, order [thumb, index, middle, ring, pinky]. -/
def fingers_up? (landmarks : List Landmark) : Option (List Bool) := do
  let thumbIp ← landmarks.get? 3
  let thumbMcp ← landmarks.get? 2
  let r0 := decide (thumbIp.y < thumbMcp.y)
  let t1 ← landmarks.get? 8
  let p1 ← landmarks.get? 6
  let t2 ← landmarks.get? 12
  let p2 ← landmarks.get? 10
  let t3 ← landmarks.get? 16
  let p3 ← landmarks.get? 14
  let t4 ← landmarks.get? 20
  let p4 ← landmarks.get? 18
  pure [r0, decide (t1.y < p1.y), decide (t2.y < p2.y),
    decide (t3.y < p3.y), decide (t4.y < p4.y)]

/-- `HandAnalyzer.count_fingers`: `sum(fingers_up(landmarks))`. -/
def count_fingers? (landmarks : List Landmark) : Option ℕ :=
  (fingers_up? landmarks).map (fun v => (v.map (fun b => if b then 1 else 0)).sum)

open Classical in
/-- `Detector.is_fist` from `gesture_tracker/old_main.py`: all four
non-thumb tips within `0.4·span` of the palm centroid, thumb folded when
close to palm centroid, tucked at the index base, or at an angle above
100° to the palm axis. -/
noncomputable def detectorIsFist? (lms : List Landmark) : Option Bool := do
  let p0 ← lms.get? 0
  let p5 ← lms.get? 5
  let p9 ← lms.get? 9
  let p13 ← lms.get? 13
  let p17 ← lms.get? 17
  let palm := smul (1/5)
    (vadd (v3 p0) (vadd (v3 p5) (vadd (v3 p9) (vadd (v3 p13) (v3 p17)))))
  let l0 ← lms.get? 0
  let l9 ← lms.get? 9
  let span := vnorm (vsub (v3 l0) (v3 l9))
  if span < 1/1000000 then
    pure false
  else
    let t4 ← lms.get? 4
    let t8 ← lms.get? 8
    let t12 ← lms.get? 12
    let t16 ← lms.get? 16
    let t20 ← lms.get? 20
    let dists := [vnorm (vsub (v3 t4) palm), vnorm (vsub (v3 t8) palm),
      vnorm (vsub (v3 t12) palm), vnorm (vsub (v3 t16) palm),
      vnorm (vsub (v3 t20) palm)]
    let thresh := 4/10 * span
    let fingersFolded : Prop := ∀ d ∈ dists.tail, d < thresh
    let thumbTip ← lms.get? 4
    let thumbMcp ← lms.get? 2
    let thumbDir := vsub (v3 thumbTip) (v3 thumbMcp)
    let indexMcp ← lms.get? 5
    let distThumbPalm := vnorm (vsub (v3 thumbTip) palm)
    let distThumbIndexbase := vnorm (vsub (v3 thumbTip) (v3 indexMcp))
    let palmAxis := vsub (v3 l9) (v3 l0)
    let angThumbPalm := angle_deg (toR thumbDir) (toR palmAxis)
    let thumbClose : Prop := distThumbPalm < 35/100 * span
    let thumbTucked : Prop := distThumbIndexbase < 28/100 * span
    let thumbAcross : Prop := 100 < angThumbPalm
    let thumbFolded : Prop := thumbClose ∨ thumbTucked ∨ thumbAcross
    pure (decide (fingersFolded ∧ thumbFolded))

/-- A 21-landmark hand on which the two fist heuristics disagree: the four
fingers have tips nearer the wrist than their PIPs (so folded for
`HandAnalyzer.is_fist`) but far from the palm centroid (so not folded for
`Detector.is_fist`), and the thumb tip is next to the wrist. -/
def divergentHand : List Landmark :=
  [⟨0, 0, 0⟩, ⟨0, 0, 0⟩, ⟨0, 0, 0⟩, ⟨0, 0, 0⟩, ⟨0, 1/10, 0⟩,
   ⟨0, 1, 0⟩, ⟨2, 0, 0⟩, ⟨0, 0, 0⟩, ⟨3/2, 0, 0⟩, ⟨0, 1, 0⟩,
   ⟨2, 0, 0⟩, ⟨0, 0, 0⟩, ⟨3/2, 0, 0⟩, ⟨0, 1, 0⟩, ⟨2, 0, 0⟩,
   ⟨0, 0, 0⟩, ⟨3/2, 0, 0⟩, ⟨0, 1, 0⟩, ⟨2, 0, 0⟩, ⟨0, 0, 0⟩, ⟨3/2, 0, 0⟩]

/-- Every non-empty list has an element whose image under `f` is maximal. -/
theorem exists_max_image {α : Type} (f : α → ℕ) (l : List α) (h : l ≠ []) :
    ∃ a ∈ l, ∀ b ∈ l, f b ≤ f a := by
  induction l with
  | nil => exact absurd rfl h
  | cons x xs ih =>
    cases xs with
    | nil =>
      refine ⟨x, List.mem_singleton_self x, ?_⟩
      intro b hb
      rcases List.mem_singleton.mp hb with rfl
      exact le_rfl
    | cons y ys =>
      obtain ⟨a, ha, hmax⟩ := ih (List.cons_ne_nil y ys)
      by_cases hx : f x ≤ f a
      · refine ⟨a, List.mem_cons_of_mem x ha, ?_⟩
        intro b hb
        rcases List.mem_cons.mp hb with rfl | hb
        · exact hx
        · exact hmax b hb
      · refine ⟨x, List.mem_cons_self x _, ?_⟩
        intro b hb
        rcases List.mem_cons.mp hb with rfl | hb
        · exact le_rfl
        · exact le_trans (hmax b hb) (le_of_not_le hx)

/-- `List.find?` returns the earliest satisfying element: any other element
satisfying the predicate sits at an index at least as large. -/
theorem find?_indexOf_le {α : Type} [BEq α] [LawfulBEq α] (p : α → Bool) (l : List α)
    (m : α) (hm : l.find? p = some m) :
    ∀ a ∈ l, p a = true → l.indexOf m ≤ l.indexOf a := by
  induction l with
  | nil => simp at hm
  | cons x xs ih =>
    intro a ha hpa
    rw [List.find?_cons] at hm
    cases hpx : p x with
    | true =>
      rw [hpx] at hm
      simp only at hm
      injection hm with hm
      subst hm
      simp [List.indexOf_cons]
    | false =>
      rw [hpx] at hm
      simp only at hm
      have hax : a ≠ x := by
        intro hax
        rw [hax, hpx] at hpa
        exact Bool.false_ne_true hpa
      have hmem : a ∈ xs := by
        rcases List.mem_cons.mp ha with rfl | hmem
        · exact absurd rfl hax
        · exact hmem
      have hmx : m ≠ x := by
        intro hmx
        have := List.find?_some hm
        rw [hmx, hpx] at this
        exact Bool.false_ne_true this
      have h1 : (x == m) = false := beq_false_of_ne (fun h => hmx h.symm)
      have h2 : (x == a) = false := beq_false_of_ne (fun h => hax h.symm)
      rw [List.indexOf_cons, List.indexOf_cons, h1, h2]
      simpa using ih hm a hmem hpa

/-- Characterization of `pyMode` on non-empty lists: it yields a member of
maximal multiplicity, and among all values tied for maximal multiplicity it
yields the one occurring earliest in the list. -/
theorem pyMode_spec {α : Type} [BEq α] [LawfulBEq α] (l : List α) (h : l ≠ []) :
    ∃ m, pyMode l = some m ∧ m ∈ l ∧ (∀ b ∈ l, l.count b ≤ l.count m) ∧
      (∀ b ∈ l, l.count b = l.count m → l.indexOf m ≤ l.indexOf b) := by
  obtain ⟨a, ha, hmax⟩ := exists_max_image (fun b => l.count b) l h
  have hsat : ∃ x ∈ l, (l.all (fun b => l.count b ≤ l.count x)) = true := by
    refine ⟨a, ha, ?_⟩
    rw [List.all_eq_true]
    intro b hb
    exact decide_eq_true (hmax b hb)
  have hsome : (pyMode l).isSome = true := by
    rw [pyMode, List.find?_isSome]
    obtain ⟨x, hx, hpx⟩ := hsat
    exact ⟨x, hx, hpx⟩
  obtain ⟨m, hm⟩ := Option.isSome_iff_exists.mp hsome
  rw [pyMode] at hm
  have hmem : m ∈ l := List.mem_of_find?_eq_some hm
  have hpm := List.find?_some hm
  simp only [List.all_eq_true, decide_eq_true_eq] at hpm
  have hcount : ∀ b ∈ l, l.count b ≤ l.count m := hpm
  refine ⟨m, by rw [pyMode]; exact hm, hmem, hcount, ?_⟩
  intro b hb hcb
  have hpb : (l.all (fun c => l.count c ≤ l.count b)) = true := by
    rw [List.all_eq_true]
    intro c hc
    exact decide_eq_true (hcb ▸ hcount c hc)
  exact find?_indexOf_le _ l m hm b hb hpb

/-- A string of the shape `"{n}_fingers"` can never be the label `"unknown"`:
the suffix alone is already longer than `"unknown"`. -/
theorem append_fingers_ne_unknown (s : String) : s ++ "_fingers" ≠ "unknown" := by
  intro heq
  have hlen := congrArg String.length heq
  rw [String.length_append] at hlen
  have h8 : ("_fingers" : String).length = 8 := rfl
  have h7 : ("unknown" : String).length = 7 := rfl
  rw [h8, h7] at hlen
  omega

/-- C1: for every non-empty window the stabilizer picks the label by the
fixed priority chain (unstable, fist, 0, 1, 2, 5, `"{n}_fingers"`), first
match winning; 10 all-fist readings with finger count 0 yield `"fist"`
(fist rule precedes the count-0 rule); and `"unknown"` is never returned on
non-empty input. -/
theorem C1_classification_priority (mcr : ℚ) (rs : List Reading) (h : rs ≠ []) :
    (∃ dc df, pyMode (rs.map Reading.count) = some dc ∧
      pyMode (rs.map Reading.is_fist) = some df ∧
      (analyzeGestureStability mcr rs).gesture =
        (if (((rs.map Reading.count).count dc : ℚ) / (rs.length : ℚ)
              + ((rs.map Reading.is_fist).count df : ℚ) / (rs.length : ℚ)) / 2 < mcr
         then "unstable"
         else if df = true ∧
             8/10 < ((rs.map Reading.is_fist).count df : ℚ) / (rs.length : ℚ)
         then "fist"
         else if dc = 0 then "open_palm_or_no_hand"
         else if dc = 1 then "one_finger"
         else if dc = 2 then "two_fingers"
         else if dc = 5 then "open_hand"
         else toString dc ++ "_fingers")) ∧
    (analyzeGestureStability mcr rs).gesture ≠ "unknown" ∧
    (analyzeGestureStability (7/10) (List.replicate 10 ⟨0, true, none⟩)).gesture =
      "fist" := by
  have hcne : rs.map Reading.count ≠ [] := fun hm => h (List.map_eq_nil_iff.mp hm)
  have hfne : rs.map Reading.is_fist ≠ [] := fun hm => h (List.map_eq_nil_iff.mp hm)
  obtain ⟨dc, hdc, -, -, -⟩ := pyMode_spec _ hcne
  obtain ⟨df, hdf, -, -, -⟩ := pyMode_spec _ hfne
  have hite : ¬ (rs.isEmpty = true) := by simpa [List.isEmpty_iff] using h
  refine ⟨⟨dc, df, hdc, hdf, ?_⟩, ?_, ?_⟩
  · unfold analyzeGestureStability
    rw [if_neg hite]
    simp only [hdc, hdf, Option.getD_some, List.length_map]
  · unfold analyzeGestureStability
    rw [if_neg hite]
    simp only [hdc, hdf, Option.getD_some, List.length_map]
    split_ifs
    all_goals first | decide | exact append_fingers_ne_unknown _
  · simp only [analyzeGestureStability, pyMode, List.isEmpty, List.replicate, List.map,
      List.find?, List.all, List.count_cons, List.count_nil, List.filterMap,
      List.getLast?, roundTo2]
    norm_num

/-- C1 witness at a concrete window. -/
theorem C1_classification_priority_witness :
    (∃ dc df, pyMode (([⟨0, true, none⟩] : List Reading).map Reading.count) = some dc ∧
      pyMode (([⟨0, true, none⟩] : List Reading).map Reading.is_fist) = some df ∧
      (analyzeGestureStability (7/10) [⟨0, true, none⟩]).gesture =
        (if (((([⟨0, true, none⟩] : List Reading).map Reading.count).count dc : ℚ) /
                ((([⟨0, true, none⟩] : List Reading)).length : ℚ)
              + ((([⟨0, true, none⟩] : List Reading).map Reading.is_fist).count df : ℚ) /
                ((([⟨0, true, none⟩] : List Reading)).length : ℚ)) / 2 < 7/10
         then "unstable"
         else if df = true ∧
             8/10 < ((([⟨0, true, none⟩] : List Reading).map Reading.is_fist).count df : ℚ) /
               ((([⟨0, true, none⟩] : List Reading)).length : ℚ)
         then "fist"
         else if dc = 0 then "open_palm_or_no_hand"
         else if dc = 1 then "one_finger"
         else if dc = 2 then "two_fingers"
         else if dc = 5 then "open_hand"
         else toString dc ++ "_fingers")) ∧
    (analyzeGestureStability (7/10) [⟨0, true, none⟩]).gesture ≠ "unknown" ∧
    (analyzeGestureStability (7/10) (List.replicate 10 ⟨0, true, none⟩)).gesture =
      "fist" :=
  C1_classification_priority (7/10) [⟨0, true, none⟩] (List.cons_ne_nil _ _)

/-- C2: the two agreement ratios are counted occurrences of the dominant
value over the window length, the returned confidence is their average, and
the spec's worked example (7 of 10 readings at two fingers, none a fist)
produces dominant count 2, ratios 0.7 and 1.0, confidence 0.85 and the
label `"two_fingers"`. -/
theorem C2_confidence_ratios (mcr : ℚ) (rs : List Reading) (h : rs ≠ []) :
    (∃ dc df, pyMode (rs.map Reading.count) = some dc ∧
      pyMode (rs.map Reading.is_fist) = some df ∧
      (analyzeGestureStability mcr rs).confidence =
        (((rs.map Reading.count).count dc : ℚ) / (rs.length : ℚ)
          + ((rs.map Reading.is_fist).count df : ℚ) / (rs.length : ℚ)) / 2) ∧
    pyMode (exampleWindow.map Reading.count) = some 2 ∧
    ((exampleWindow.map Reading.count).count 2 : ℚ) / (exampleWindow.length : ℚ)
      = 7/10 ∧
    ((exampleWindow.map Reading.is_fist).count false : ℚ) / (exampleWindow.length : ℚ)
      = 1 ∧
    analyzeGestureStability (7/10) exampleWindow =
      ⟨"two_fingers", 85/100, some ⟨2, false, 10, 85/100, none, none⟩⟩ := by
  have hcne : rs.map Reading.count ≠ [] := fun hm => h (List.map_eq_nil_iff.mp hm)
  have hfne : rs.map Reading.is_fist ≠ [] := fun hm => h (List.map_eq_nil_iff.mp hm)
  obtain ⟨dc, hdc, -, -, -⟩ := pyMode_spec _ hcne
  obtain ⟨df, hdf, -, -, -⟩ := pyMode_spec _ hfne
  have hite : ¬ (rs.isEmpty = true) := by simpa [List.isEmpty_iff] using h
  refine ⟨⟨dc, df, hdc, hdf, ?_⟩, ?_, ?_, ?_, ?_⟩
  · unfold analyzeGestureStability
    rw [if_neg hite]
    simp only [hdc, hdf, Option.getD_some, List.length_map]
  all_goals
    simp only [exampleWindow, analyzeGestureStability, pyMode, List.isEmpty,
      List.replicate, List.append_eq, List.cons_append, List.nil_append, List.map,
      List.find?, List.all, List.count_cons, List.count_nil, List.filterMap,
      List.getLast?, roundTo2]
    norm_num

/-- C2 witness at a concrete window. -/
theorem C2_confidence_ratios_witness :
    (∃ dc df, pyMode (([⟨2, false, none⟩] : List Reading).map Reading.count) = some dc ∧
      pyMode (([⟨2, false, none⟩] : List Reading).map Reading.is_fist) = some df ∧
      (analyzeGestureStability (7/10) [⟨2, false, none⟩]).confidence =
        (((([⟨2, false, none⟩] : List Reading).map Reading.count).count dc : ℚ) /
            ((([⟨2, false, none⟩] : List Reading)).length : ℚ)
          + ((([⟨2, false, none⟩] : List Reading).map Reading.is_fist).count df : ℚ) /
            ((([⟨2, false, none⟩] : List Reading)).length : ℚ)) / 2) ∧
    pyMode (exampleWindow.map Reading.count) = some 2 ∧
    ((exampleWindow.map Reading.count).count 2 : ℚ) / (exampleWindow.length : ℚ)
      = 7/10 ∧
    ((exampleWindow.map Reading.is_fist).count false : ℚ) / (exampleWindow.length : ℚ)
      = 1 ∧
    analyzeGestureStability (7/10) exampleWindow =
      ⟨"two_fingers", 85/100, some ⟨2, false, 10, 85/100, none, none⟩⟩ :=
  C2_confidence_ratios (7/10) [⟨2, false, none⟩] (List.cons_ne_nil _ _)

/-- C3 counterexample: on the empty window the returned dictionary has an
empty `details`, so no field of the result records a sample count of 0;
the claim's `sample_count: 0` does not exist in the returned value. -/
theorem C3_empty_counterexample :
    ¬ ∃ d, (analyzeGestureStability (7/10) []).details = some d := by
  intro hx
  obtain ⟨d, hd⟩ := hx
  exact Option.noConfusion hd

/-- C3 (amended): stabilizing an empty window is not an error: the result
is gesture `"none"`, confidence `0.0`, and an empty details dictionary
(which carries no sample count at all). -/
theorem C3_empty_window (mcr : ℚ) :
    analyzeGestureStability mcr [] = ⟨"none", 0, none⟩ := rfl

/-- C4: on a non-empty window the dominant finger count and dominant fist
flag reported in `details` are modes of the respective projections, and any
value tied in multiplicity with the dominant one occurs no earlier in the
window.  (Determinism is immediate: the embedding is a pure function.) -/
theorem C4_dominant_is_mode (mcr : ℚ) (rs : List Reading) (h : rs ≠ []) :
    ∃ d, (analyzeGestureStability mcr rs).details = some d ∧
      d.dominant_finger_count ∈ rs.map Reading.count ∧
      (∀ b ∈ rs.map Reading.count,
        (rs.map Reading.count).count b ≤
          (rs.map Reading.count).count d.dominant_finger_count) ∧
      (∀ b ∈ rs.map Reading.count,
        (rs.map Reading.count).count b =
            (rs.map Reading.count).count d.dominant_finger_count →
          (rs.map Reading.count).indexOf d.dominant_finger_count ≤
            (rs.map Reading.count).indexOf b) ∧
      d.is_dominant_fist ∈ rs.map Reading.is_fist ∧
      (∀ b ∈ rs.map Reading.is_fist,
        (rs.map Reading.is_fist).count b ≤
          (rs.map Reading.is_fist).count d.is_dominant_fist) ∧
      (∀ b ∈ rs.map Reading.is_fist,
        (rs.map Reading.is_fist).count b =
            (rs.map Reading.is_fist).count d.is_dominant_fist →
          (rs.map Reading.is_fist).indexOf d.is_dominant_fist ≤
            (rs.map Reading.is_fist).indexOf b) := by
  have hcne : rs.map Reading.count ≠ [] := fun hm => h (List.map_eq_nil_iff.mp hm)
  have hfne : rs.map Reading.is_fist ≠ [] := fun hm => h (List.map_eq_nil_iff.mp hm)
  obtain ⟨dc, hdc, hdmem, hdmax, hdidx⟩ := pyMode_spec _ hcne
  obtain ⟨df, hdf, hfmem, hfmax, hfidx⟩ := pyMode_spec _ hfne
  have hite : ¬ (rs.isEmpty = true) := by simpa [List.isEmpty_iff] using h
  unfold analyzeGestureStability
  rw [if_neg hite]
  refine ⟨_, rfl, ?_, ?_, ?_, ?_, ?_, ?_⟩
  all_goals simp only [hdc, hdf, Option.getD_some]
  · exact hdmem
  · exact hdmax
  · exact hdidx
  · exact hfmem
  · exact hfmax
  · exact hfidx

/-- C4 witness at a concrete window. -/
theorem C4_dominant_is_mode_witness :
    ∃ d, (analyzeGestureStability (7/10) [⟨3, true, none⟩, ⟨3, false, none⟩]).details
        = some d ∧
      d.dominant_finger_count ∈
        ([⟨3, true, none⟩, ⟨3, false, none⟩] : List Reading).map Reading.count ∧
      (∀ b ∈ ([⟨3, true, none⟩, ⟨3, false, none⟩] : List Reading).map Reading.count,
        (([⟨3, true, none⟩, ⟨3, false, none⟩] : List Reading).map Reading.count).count b ≤
          (([⟨3, true, none⟩, ⟨3, false, none⟩] : List Reading).map
            Reading.count).count d.dominant_finger_count) ∧
      (∀ b ∈ ([⟨3, true, none⟩, ⟨3, false, none⟩] : List Reading).map Reading.count,
        (([⟨3, true, none⟩, ⟨3, false, none⟩] : List Reading).map Reading.count).count b =
            (([⟨3, true, none⟩, ⟨3, false, none⟩] : List Reading).map
              Reading.count).count d.dominant_finger_count →
          (([⟨3, true, none⟩, ⟨3, false, none⟩] : List Reading).map
            Reading.count).indexOf d.dominant_finger_count ≤
            (([⟨3, true, none⟩, ⟨3, false, none⟩] : List Reading).map
              Reading.count).indexOf b) ∧
      d.is_dominant_fist ∈
        ([⟨3, true, none⟩, ⟨3, false, none⟩] : List Reading).map Reading.is_fist ∧
      (∀ b ∈ ([⟨3, true, none⟩, ⟨3, false, none⟩] : List Reading).map Reading.is_fist,
        (([⟨3, true, none⟩, ⟨3, false, none⟩] : List Reading).map Reading.is_fist).count b ≤
          (([⟨3, true, none⟩, ⟨3, false, none⟩] : List Reading).map
            Reading.is_fist).count d.is_dominant_fist) ∧
      (∀ b ∈ ([⟨3, true, none⟩, ⟨3, false, none⟩] : List Reading).map Reading.is_fist,
        (([⟨3, true, none⟩, ⟨3, false, none⟩] : List Reading).map Reading.is_fist).count b =
            (([⟨3, true, none⟩, ⟨3, false, none⟩] : List Reading).map
              Reading.is_fist).count d.is_dominant_fist →
          (([⟨3, true, none⟩, ⟨3, false, none⟩] : List Reading).map
            Reading.is_fist).indexOf d.is_dominant_fist ≤
            (([⟨3, true, none⟩, ⟨3, false, none⟩] : List Reading).map
              Reading.is_fist).indexOf b) :=
  C4_dominant_is_mode (7/10) [⟨3, true, none⟩, ⟨3, false, none⟩] (List.cons_ne_nil _ _)

/-- C8 counterexample: when no reading carries a finger pattern the
`active_fingers` key is absent from `details` (`none`), not present and
empty (`some []`), refuting the claim's "empty if no reading carries a
finger pattern" at a one-reading window without an `up` key. -/
theorem C8_active_fingers_counterexample :
    ¬ ∃ d, (analyzeGestureStability (7/10) [⟨1, false, none⟩]).details = some d ∧
      d.active_fingers = some [] := by
  intro hx
  obtain ⟨d, hd, ha⟩ := hx
  have : d = ⟨1, false, 1, 1, none, none⟩ := by
    have hcomp : (analyzeGestureStability (7/10) [⟨1, false, none⟩]).details =
        some ⟨1, false, 1, 1, none, none⟩ := by
      simp only [analyzeGestureStability, pyMode, List.isEmpty, List.map,
        List.find?, List.all, List.count_cons, List.count_nil, List.filterMap,
        List.getLast?, roundTo2]
      norm_num
    rw [hcomp] at hd
    exact (Option.some_inj.mp hd).symm
  rw [this] at ha
  exact Option.noConfusion ha

/-- C8 (amended): on a non-empty window, if no reading carries a finger
pattern the `active_fingers` key is absent; otherwise it is the mode of the
carried patterns with the same earliest-occurrence tie-break as the
dominant values. -/
theorem C8_active_fingers_mode (mcr : ℚ) (rs : List Reading) (h : rs ≠ []) :
    ∃ d, (analyzeGestureStability mcr rs).details = some d ∧
      (rs.filterMap Reading.up = [] → d.active_fingers = none) ∧
      (rs.filterMap Reading.up ≠ [] → ∃ m, d.active_fingers = some m ∧
        m ∈ rs.filterMap Reading.up ∧
        (∀ p ∈ rs.filterMap Reading.up,
          (rs.filterMap Reading.up).count p ≤ (rs.filterMap Reading.up).count m) ∧
        (∀ p ∈ rs.filterMap Reading.up,
          (rs.filterMap Reading.up).count p = (rs.filterMap Reading.up).count m →
            (rs.filterMap Reading.up).indexOf m ≤ (rs.filterMap Reading.up).indexOf p)) := by
  have hite : ¬ (rs.isEmpty = true) := by simpa [List.isEmpty_iff] using h
  unfold analyzeGestureStability
  rw [if_neg hite]
  refine ⟨_, rfl, ?_, ?_⟩
  · intro hp
    simp only [hp, List.isEmpty_nil, if_true]
  · intro hp
    obtain ⟨m, hm, hmem, hmax, hidx⟩ := pyMode_spec _ hp
    have hpe : (rs.filterMap Reading.up).isEmpty = false := by
      simpa [List.isEmpty_iff] using hp
    refine ⟨m, ?_, hmem, hmax, hidx⟩
    simp only [hpe, Bool.false_eq_true, if_false, hm, Option.getD_some]

/-- C8 witness at a concrete window carrying one finger pattern. -/
theorem C8_active_fingers_mode_witness :
    ∃ d, (analyzeGestureStability (7/10) [⟨1, false, some ["Kciuk"]⟩]).details = some d ∧
      (([⟨1, false, some ["Kciuk"]⟩] : List Reading).filterMap Reading.up = [] →
        d.active_fingers = none) ∧
      (([⟨1, false, some ["Kciuk"]⟩] : List Reading).filterMap Reading.up ≠ [] →
        ∃ m, d.active_fingers = some m ∧
        m ∈ ([⟨1, false, some ["Kciuk"]⟩] : List Reading).filterMap Reading.up ∧
        (∀ p ∈ ([⟨1, false, some ["Kciuk"]⟩] : List Reading).filterMap Reading.up,
          (([⟨1, false, some ["Kciuk"]⟩] : List Reading).filterMap Reading.up).count p ≤
            (([⟨1, false, some ["Kciuk"]⟩] : List Reading).filterMap Reading.up).count m) ∧
        (∀ p ∈ ([⟨1, false, some ["Kciuk"]⟩] : List Reading).filterMap Reading.up,
          (([⟨1, false, some ["Kciuk"]⟩] : List Reading).filterMap Reading.up).count p =
              (([⟨1, false, some ["Kciuk"]⟩] : List Reading).filterMap Reading.up).count m →
            (([⟨1, false, some ["Kciuk"]⟩] : List Reading).filterMap Reading.up).indexOf m ≤
              (([⟨1, false, some ["Kciuk"]⟩] : List Reading).filterMap Reading.up).indexOf p)) :=
  C8_active_fingers_mode (7/10) [⟨1, false, some ["Kciuk"]⟩] (List.cons_ne_nil _ _)
/-- A bind chain over `Option` succeeds exactly when the first step yields a
value on which the rest succeeds. -/
theorem isSome_bind {α β : Type} (o : Option α) (f : α → Option β) :
    ((o >>= f).isSome = true) ↔ ∃ a, o = some a ∧ (f a).isSome = true := by
  cases o <;> simp

/-- Python's `sum` over booleans counts the `True` entries. -/
theorem sum_boolIndicator (v : List Bool) :
    (v.map (fun b => if b then 1 else 0)).sum = v.count true := by
  induction v with
  | nil => rfl
  | cons b t ih => cases b <;> simp [List.count_cons, ih] <;> omega

set_option maxHeartbeats 1600000 in
/-- C5: on any 21-landmark hand `is_fist` returns a value (never raises);
it is `false` on degenerate geometry (`hand_scale < 1e-6`) and otherwise
`true` iff at least 3 of the 4 non-thumb fingers have tip closer to the
wrist than their PIP and the thumb tip is within `0.3·hand_scale` of the
index MCP or within `0.4·hand_scale` of the wrist. -/
theorem C5_is_fist_characterization
    (l0 l1 l2 l3 l4 l5 l6 l7 l8 l9 l10 l11 l12 l13 l14 l15 l16 l17 l18 l19 l20 :
      Landmark) :
    is_fist? [l0, l1, l2, l3, l4, l5, l6, l7, l8, l9, l10, l11, l12, l13, l14,
      l15, l16, l17, l18, l19, l20] =
    some (decide (¬ vnorm (vsub (v3 l0) (v3 l9)) < 1/1000000 ∧
      3 ≤ ((if vnorm (vsub (v3 l8) (v3 l0)) < vnorm (vsub (v3 l6) (v3 l0)) then 1 else 0) +
           (if vnorm (vsub (v3 l12) (v3 l0)) < vnorm (vsub (v3 l10) (v3 l0)) then 1 else 0) +
           (if vnorm (vsub (v3 l16) (v3 l0)) < vnorm (vsub (v3 l14) (v3 l0)) then 1 else 0) +
           (if vnorm (vsub (v3 l20) (v3 l0)) < vnorm (vsub (v3 l18) (v3 l0)) then 1 else 0) : ℕ) ∧
      (vnorm (vsub (v3 l4) (v3 l5)) < 3/10 * vnorm (vsub (v3 l0) (v3 l9)) ∨
       vnorm (vsub (v3 l4) (v3 l0)) < 4/10 * vnorm (vsub (v3 l0) (v3 l9))))) := by
  by_cases hA : vnorm (vsub (v3 l0) (v3 l9)) < 1/1000000
  all_goals rw [one_div] at hA
  · simp only [is_fist?]
    simp [hA]
  · simp only [is_fist?]
    norm_num [hA]
    by_cases h1 : vnorm (vsub (v3 l8) (v3 l0)) < vnorm (vsub (v3 l6) (v3 l0)) <;>
      by_cases h2 : vnorm (vsub (v3 l12) (v3 l0)) < vnorm (vsub (v3 l10) (v3 l0)) <;>
      by_cases h3 : vnorm (vsub (v3 l16) (v3 l0)) < vnorm (vsub (v3 l14) (v3 l0)) <;>
      by_cases h4 : vnorm (vsub (v3 l20) (v3 l0)) < vnorm (vsub (v3 l18) (v3 l0)) <;>
      simp [h1, h2, h3, h4, hA, decide_eq_true (not_lt.mp hA)]

/-- C6: `fingers_up` is the 5-vector [thumb, index, middle, ring, pinky]
with thumb decided by IP-vs-MCP on y and each finger by tip-vs-PIP on y,
and `count_fingers` always equals the number of raised entries of
`fingers_up` on the same landmarks. -/
theorem C6_fingers_up_invariant :
    (∀ l0 l1 l2 l3 l4 l5 l6 l7 l8 l9 l10 l11 l12 l13 l14 l15 l16 l17 l18 l19 l20 :
        Landmark,
      fingers_up? [l0, l1, l2, l3, l4, l5, l6, l7, l8, l9, l10, l11, l12, l13, l14,
        l15, l16, l17, l18, l19, l20] =
      some [decide (l3.y < l2.y), decide (l8.y < l6.y), decide (l12.y < l10.y),
        decide (l16.y < l14.y), decide (l20.y < l18.y)]) ∧
    (∀ lms : List Landmark,
      count_fingers? lms = (fingers_up? lms).map (fun v => v.count true)) := by
  constructor
  · intro l0 l1 l2 l3 l4 l5 l6 l7 l8 l9 l10 l11 l12 l13 l14 l15 l16 l17 l18 l19 l20
    rfl
  · intro lms
    rw [count_fingers?]
    cases fingers_up? lms <;> simp [sum_boolIndicator]

/-- C7: the unit-vector helper leaves near-zero vectors unchanged, and
`angle_deg` always returns a value in `[0, 180]` (clipping keeps the
cosine inside the domain of `arccos`, so the result is fully defined). -/
theorem C7_angle_deg_total_range (v1 v2 v : RVec3) :
    (rnorm v < 1/1000000 → unitVec v = v) ∧
    0 ≤ angle_deg v1 v2 ∧ angle_deg v1 v2 ≤ 180 := by
  refine ⟨?_, ?_, ?_⟩
  · intro h
    simp only [unitVec]
    rw [if_neg (lt_asymm h)]
  · exact div_nonneg (mul_nonneg (Real.arccos_nonneg _) (by norm_num))
      (le_of_lt Real.pi_pos)
  · have hle := Real.arccos_le_pi (clip (rdot (unitVec v1) (unitVec v2)) (-1) 1)
    have h1 : angle_deg v1 v2 ≤ Real.pi * 180 / Real.pi := by
      rw [angle_deg, degrees, div_le_div_iff_of_pos_right Real.pi_pos]
      exact mul_le_mul_of_nonneg_right hle (by norm_num)
    calc angle_deg v1 v2 ≤ Real.pi * 180 / Real.pi := h1
      _ = 180 := by
        rw [mul_comm, mul_div_assoc, div_self (ne_of_gt Real.pi_pos), mul_one]

/-- C7 witness: the zero vector is left unchanged and a concrete angle is
inside `[0, 180]`. -/
theorem C7_angle_deg_total_range_witness :
    unitVec ⟨0, 0, 0⟩ = ⟨0, 0, 0⟩ ∧
    0 ≤ angle_deg ⟨1, 0, 0⟩ ⟨0, 1, 0⟩ ∧ angle_deg ⟨1, 0, 0⟩ ⟨0, 1, 0⟩ ≤ 180 :=
  ⟨(C7_angle_deg_total_range ⟨1, 0, 0⟩ ⟨0, 1, 0⟩ ⟨0, 0, 0⟩).1
      (by norm_num [rnorm, rdot, Real.sqrt_zero]),
    (C7_angle_deg_total_range ⟨1, 0, 0⟩ ⟨0, 1, 0⟩ ⟨0, 0, 0⟩).2.1,
    (C7_angle_deg_total_range ⟨1, 0, 0⟩ ⟨0, 1, 0⟩ ⟨0, 0, 0⟩).2.2⟩

/-- C9 counterexample: the extractor does not validate the landmark count.
A 22-entry array is processed silently by `fingers_up` (and a 13-entry
array by `compute_angles`, an 18-entry array by `palm_center`) instead of
raising a descriptive error. -/
theorem C9_no_count_validation_counterexample :
    (List.replicate 22 (⟨0, 0, 0⟩ : Landmark)).length = 22 ∧
    fingers_up? (List.replicate 22 ⟨0, 0, 0⟩) =
      some [false, false, false, false, false] ∧
    palm_center? (List.replicate 18 ⟨0, 0, 0⟩) = some (0, 0) ∧
    (compute_angles? (List.replicate 13 ⟨0, 0, 0⟩)).isSome = true := by
  refine ⟨by simp, ?_, ?_, rfl⟩
  · norm_num [fingers_up?, List.replicate]
  · norm_num [palm_center?, smul, vadd, v3, List.replicate]

/-- C9 (amended): each extractor operation raises (`none`) exactly when it
subscripts past the end of the landmark list: `fingers_up` needs 21
entries, `palm_center` only 18, `compute_angles` only 13, and `is_fist`
never raises on 21 or more; oversized arrays are processed silently. -/
theorem C9_out_of_range_behavior :
    (∀ lms : List Landmark, (fingers_up? lms).isSome = true ↔ 21 ≤ lms.length) ∧
    (∀ lms : List Landmark, (palm_center? lms).isSome = true ↔ 18 ≤ lms.length) ∧
    (∀ lms : List Landmark, (compute_angles? lms).isSome = true ↔ 13 ≤ lms.length) ∧
    (∀ lms : List Landmark, 21 ≤ lms.length → (is_fist? lms).isSome = true) := by
  refine ⟨?_, ?_, ?_, ?_⟩
  · intro lms
    constructor
    · intro h
      rw [fingers_up?] at h
      obtain ⟨a1, h1, h⟩ := (isSome_bind _ _).mp h
      obtain ⟨a2, h2, h⟩ := (isSome_bind _ _).mp h
      obtain ⟨a3, h3, h⟩ := (isSome_bind _ _).mp h
      obtain ⟨a4, h4, h⟩ := (isSome_bind _ _).mp h
      obtain ⟨a5, h5, h⟩ := (isSome_bind _ _).mp h
      obtain ⟨a6, h6, h⟩ := (isSome_bind _ _).mp h
      obtain ⟨a7, h7, h⟩ := (isSome_bind _ _).mp h
      obtain ⟨a8, h8, h⟩ := (isSome_bind _ _).mp h
      obtain ⟨a9, h9, h⟩ := (isSome_bind _ _).mp h
      obtain ⟨hlt, -⟩ := List.get?_eq_some.mp h9
      omega
    · intro h
      have g3 : lms[3]? = some (lms.get ⟨3, by omega⟩) :=
        List.getElem?_eq_getElem (by omega)
      have g2 : lms[2]? = some (lms.get ⟨2, by omega⟩) :=
        List.getElem?_eq_getElem (by omega)
      have g8 : lms[8]? = some (lms.get ⟨8, by omega⟩) :=
        List.getElem?_eq_getElem (by omega)
      have g6 : lms[6]? = some (lms.get ⟨6, by omega⟩) :=
        List.getElem?_eq_getElem (by omega)
      have g12 : lms[12]? = some (lms.get ⟨12, by omega⟩) :=
        List.getElem?_eq_getElem (by omega)
      have g10 : lms[10]? = some (lms.get ⟨10, by omega⟩) :=
        List.getElem?_eq_getElem (by omega)
      have g16 : lms[16]? = some (lms.get ⟨16, by omega⟩) :=
        List.getElem?_eq_getElem (by omega)
      have g14 : lms[14]? = some (lms.get ⟨14, by omega⟩) :=
        List.getElem?_eq_getElem (by omega)
      have g20 : lms[20]? = some (lms.get ⟨20, by omega⟩) :=
        List.getElem?_eq_getElem (by omega)
      have g18 : lms[18]? = some (lms.get ⟨18, by omega⟩) :=
        List.getElem?_eq_getElem (by omega)
      simp [fingers_up?, g3, g2, g8, g6, g12, g10, g16, g14, g20, g18]
  · intro lms
    constructor
    · intro h
      rw [palm_center?] at h
      obtain ⟨a1, h1, h⟩ := (isSome_bind _ _).mp h
      obtain ⟨a2, h2, h⟩ := (isSome_bind _ _).mp h
      obtain ⟨a3, h3, h⟩ := (isSome_bind _ _).mp h
      obtain ⟨a4, h4, h⟩ := (isSome_bind _ _).mp h
      obtain ⟨a5, h5, h⟩ := (isSome_bind _ _).mp h
      obtain ⟨hlt, -⟩ := List.get?_eq_some.mp h5
      omega
    · intro h
      have g0 : lms[0]? = some (lms.get ⟨0, by omega⟩) :=
        List.getElem?_eq_getElem (by omega)
      have g5 : lms[5]? = some (lms.get ⟨5, by omega⟩) :=
        List.getElem?_eq_getElem (by omega)
      have g9 : lms[9]? = some (lms.get ⟨9, by omega⟩) :=
        List.getElem?_eq_getElem (by omega)
      have g13 : lms[13]? = some (lms.get ⟨13, by omega⟩) :=
        List.getElem?_eq_getElem (by omega)
      have g17 : lms[17]? = some (lms.get ⟨17, by omega⟩) :=
        List.getElem?_eq_getElem (by omega)
      simp [palm_center?, g0, g5, g9, g13, g17]
  · intro lms
    constructor
    · intro h
      rw [compute_angles?] at h
      obtain ⟨a1, h1, h⟩ := (isSome_bind _ _).mp h
      obtain ⟨a2, h2, h⟩ := (isSome_bind _ _).mp h
      obtain ⟨hlt, -⟩ := List.get?_eq_some.mp h2
      omega
    · intro h
      have g9 : lms[9]? = some (lms.get ⟨9, by omega⟩) :=
        List.getElem?_eq_getElem (by omega)
      have g12 : lms[12]? = some (lms.get ⟨12, by omega⟩) :=
        List.getElem?_eq_getElem (by omega)
      have g5 : lms[5]? = some (lms.get ⟨5, by omega⟩) :=
        List.getElem?_eq_getElem (by omega)
      have g8 : lms[8]? = some (lms.get ⟨8, by omega⟩) :=
        List.getElem?_eq_getElem (by omega)
      have g2 : lms[2]? = some (lms.get ⟨2, by omega⟩) :=
        List.getElem?_eq_getElem (by omega)
      have g4 : lms[4]? = some (lms.get ⟨4, by omega⟩) :=
        List.getElem?_eq_getElem (by omega)
      simp [compute_angles?, g9, g12, g5, g8, g2, g4]
  · intro lms h
    have g0 : lms[0]? = some (lms.get ⟨0, by omega⟩) :=
      List.getElem?_eq_getElem (by omega)
    have g9 : lms[9]? = some (lms.get ⟨9, by omega⟩) :=
      List.getElem?_eq_getElem (by omega)
    have g8 : lms[8]? = some (lms.get ⟨8, by omega⟩) :=
      List.getElem?_eq_getElem (by omega)
    have g6 : lms[6]? = some (lms.get ⟨6, by omega⟩) :=
      List.getElem?_eq_getElem (by omega)
    have g12 : lms[12]? = some (lms.get ⟨12, by omega⟩) :=
      List.getElem?_eq_getElem (by omega)
    have g10 : lms[10]? = some (lms.get ⟨10, by omega⟩) :=
      List.getElem?_eq_getElem (by omega)
    have g16 : lms[16]? = some (lms.get ⟨16, by omega⟩) :=
      List.getElem?_eq_getElem (by omega)
    have g14 : lms[14]? = some (lms.get ⟨14, by omega⟩) :=
      List.getElem?_eq_getElem (by omega)
    have g20 : lms[20]? = some (lms.get ⟨20, by omega⟩) :=
      List.getElem?_eq_getElem (by omega)
    have g18 : lms[18]? = some (lms.get ⟨18, by omega⟩) :=
      List.getElem?_eq_getElem (by omega)
    have g4 : lms[4]? = some (lms.get ⟨4, by omega⟩) :=
      List.getElem?_eq_getElem (by omega)
    have g3 : lms[3]? = some (lms.get ⟨3, by omega⟩) :=
      List.getElem?_eq_getElem (by omega)
    have g5 : lms[5]? = some (lms.get ⟨5, by omega⟩) :=
      List.getElem?_eq_getElem (by omega)
    rw [is_fist?]
    simp only [List.get?_eq_getElem?, g0, g9, g8, g6, g12, g10, g16, g14,
      g20, g18, g4, g3, g5, Option.bind_eq_bind, Option.some_bind]
    split_ifs <;> simp

/-- C9 witness: on a well-formed 21-entry array `is_fist` returns a value,
and the `fingers_up` length characterization instantiates there. -/
theorem C9_out_of_range_behavior_witness :
    (is_fist? (List.replicate 21 (⟨0, 0, 0⟩ : Landmark))).isSome = true ∧
    ((fingers_up? (List.replicate 21 (⟨0, 0, 0⟩ : Landmark))).isSome = true ↔
      21 ≤ (List.replicate 21 (⟨0, 0, 0⟩ : Landmark)).length) :=
  ⟨C9_out_of_range_behavior.2.2.2 _ (by simp), C9_out_of_range_behavior.1 _⟩

set_option maxHeartbeats 1600000 in
/-- C10: the two fist heuristics in the source disagree: on
`divergentHand` (a well-formed 21-landmark hand) `HandAnalyzer.is_fist`
answers `true` while `Detector.is_fist` of `old_main.py` answers `false`,
so they are not extensionally equal. -/
theorem C10_divergent_fist_heuristics :
    divergentHand.length = 21 ∧
    is_fist? divergentHand = some true ∧
    detectorIsFist? divergentHand = some false := by
  refine ⟨rfl, ?_, ?_⟩
  · have h4 : Real.sqrt 4 = 2 := by
      rw [show (4:ℝ) = 2^2 by norm_num]
      exact Real.sqrt_sq (by norm_num)
    have h9 : Real.sqrt 9 = 3 := by
      rw [show (9:ℝ) = 3^2 by norm_num]
      exact Real.sqrt_sq (by norm_num)
    have h81 : Real.sqrt 81 = 9 := by
      rw [show (81:ℝ) = 9^2 by norm_num]
      exact Real.sqrt_sq (by norm_num)
    have h100 : Real.sqrt 100 = 10 := by
      rw [show (100:ℝ) = 10^2 by norm_num]
      exact Real.sqrt_sq (by norm_num)
    norm_num [is_fist?, divergentHand, v3, vsub, vnorm, normSq, h4, h9, h81, h100]
  · have h100 : Real.sqrt 100 = 10 := by
      rw [show (100:ℝ) = 10^2 by norm_num]
      exact Real.sqrt_sq (by norm_num)
    have h289 : Real.sqrt 289 = 17 := by
      rw [show (289:ℝ) = 17^2 by norm_num]
      exact Real.sqrt_sq (by norm_num)
    norm_num [detectorIsFist?, divergentHand, v3, vsub, vadd, smul, vnorm, normSq,
      h100, h289]

end SimpleMpc
